import Mathlib

/-!
Shallow embedding of `custom_components/Homeassistant-utec/Core/device_types.py`
(the Device Capability Registry & Validator): the `HandleType` and
`DeviceCapability` enumerations, the `HANDLE_TYPE_CAPABILITIES` table,
`BaseDevice` construction with `_validate_capabilities`, the
`send_command` / `update` response handling, and the `RGBColor` value object.

Python conventions used throughout:
  - machine errors are modeled by `PyError` (KeyError, ValueError,
    AttributeError, IndexError) together with the one domain error,
    `DeviceError`, which carries the device id and the set of missing
    capabilities that the f-string message
    `"Device {id} missing required capabilities: {missing}"` names;
  - a Python dict with a fixed key schema is a structure of `Option` fields
    (a `none` field is an absent key; indexing an absent key is a KeyError);
  - a `Dict[str, int]` payload is an association list `List (String × Int)`;
  - mutation of `self` is explicit state passing: a method returns the
    updated object together with `Except PyError` of its result.
-/

/-- Enumeration `DeviceCapability` of device_types.py (lines 45-54):
nine members. -/
inductive DeviceCapability where
  | SWITCH
  | LOCK
  | BATTERY_LEVEL
  | LOCK_USER
  | DOOR_SENSOR
  | BRIGHTNESS
  | COLOR
  | COLOR_TEMPERATURE
  | SWITCH_LEVEL
  deriving DecidableEq, Repr, Fintype

/-- The string value each `DeviceCapability` member carries (it is a
`str` enum).  Note the source gives `SWITCH_LEVEL = "Switch Level"`,
with a space. -/
def DeviceCapability.value : DeviceCapability → String
  | .SWITCH => "Switch"
  | .LOCK => "Lock"
  | .BATTERY_LEVEL => "BatteryLevel"
  | .LOCK_USER => "LockUser"
  | .DOOR_SENSOR => "DoorSensor"
  | .BRIGHTNESS => "Brightness"
  | .COLOR => "Color"
  | .COLOR_TEMPERATURE => "ColorTemperature"
  | .SWITCH_LEVEL => "Switch Level"

/-- Enumeration `HandleType` of device_types.py (lines 38-43): five members. -/
inductive HandleType where
  | UTEC_LOCK
  | UTEC_LOCK_SENSOR
  | UTEC_DIMMER
  | UTEC_LIGHT_RGBAW
  | UTEC_SWITCH
  deriving DecidableEq, Repr, Fintype

/-- The string value each `HandleType` member carries (it is a `str` enum). -/
def HandleType.value : HandleType → String
  | .UTEC_LOCK => "utec-lock"
  | .UTEC_LOCK_SENSOR => "utec-lock-sensor"
  | .UTEC_DIMMER => "utec-dimmer"
  | .UTEC_LIGHT_RGBAW => "utec-light-rgbaw-br"
  | .UTEC_SWITCH => "utec-switch"

/-- The enum constructor call `HandleType(s)`: looks a string up among the
member values, raising `ValueError` (here: `none`) when no member matches. -/
def HandleType.ofString (s : String) : Option HandleType :=
  if s = "utec-lock" then some .UTEC_LOCK
  else if s = "utec-lock-sensor" then some .UTEC_LOCK_SENSOR
  else if s = "utec-dimmer" then some .UTEC_DIMMER
  else if s = "utec-light-rgbaw-br" then some .UTEC_LIGHT_RGBAW
  else if s = "utec-switch" then some .UTEC_SWITCH
  else none

/-- The dict literal `HANDLE_TYPE_CAPABILITIES` of device_types.py
(lines 120-144), kept as the association list the source writes, so
that totality over `HandleType` is a provable fact rather than being
baked into a total function type. -/
def HANDLE_TYPE_CAPABILITIES : List (HandleType × Finset DeviceCapability) :=
  [ (.UTEC_LOCK, {.LOCK, .BATTERY_LEVEL, .LOCK_USER}),
    (.UTEC_LOCK_SENSOR, {.LOCK, .BATTERY_LEVEL, .DOOR_SENSOR}),
    (.UTEC_DIMMER, {.SWITCH, .SWITCH_LEVEL}),
    (.UTEC_LIGHT_RGBAW, {.SWITCH, .BRIGHTNESS, .COLOR, .COLOR_TEMPERATURE}),
    (.UTEC_SWITCH, {.SWITCH}) ]

/-- The dict indexing `HANDLE_TYPE_CAPABILITIES[ht]`; `none` is a KeyError. -/
def capsLookup (ht : HandleType) : Option (Finset DeviceCapability) :=
  HANDLE_TYPE_CAPABILITIES.lookup ht

/-- Convenience accessor for stating claims: the required set of a handle
type, defaulting to the empty set on a (never occurring) missing entry. -/
def requiredCaps (ht : HandleType) : Finset DeviceCapability :=
  (capsLookup ht).getD ∅

/-- Exceptions this component can raise or let propagate.  `deviceError`
is the domain error `DeviceError` raised by `_validate_capabilities`; it
carries the device id and the `missing` set interpolated into its
message `"Device {id} missing required capabilities: {missing}"`.  The
others are the uncaught built-in exceptions: `keyError` from indexing an
absent dict key, `valueError` from `HandleType(s)` on an unrecognized
string, `attributeError` from reading an attribute the object lacks,
`indexError` from indexing an empty list. -/
inductive PyError where
  | keyError (key : String)
  | valueError (badValue : String)
  | deviceError (deviceId : String) (missing : Finset DeviceCapability)
  | attributeError (attr : String)
  | indexError (index : Nat)
  deriving DecidableEq

/-- Whether an exception is the domain `DeviceError`. -/
def PyError.isDeviceError : PyError → Bool
  | .deviceError _ _ => true
  | _ => false

/-- The raw device-state dictionary stored in `_state_data` by
`send_command` / `update`.  This component never looks inside it, so its
entries are kept as an uninterpreted association list. -/
abbrev StateDict := List (String × String)

/-- The `discovery_data` dictionary handed to `BaseDevice.__init__`:
an `Option` field per key the constructor reads (a `none` field is an
absent key).  The supported-capability set reported by the vendor is
taken as a set of `DeviceCapability` members; the source stores the raw
value unconverted, and since the enum is a `str` enum, set operations
compare members by their string values, which are pairwise distinct. -/
structure DiscoveryData where
  id : Option String
  name : Option String
  handleType : Option String
  supportedCapabilities : Option (Finset DeviceCapability)
  deriving DecidableEq

/-- Instance attributes of a constructed `BaseDevice` (device_types.py
lines 65-72), plus `_state_data`, which only `send_command` / `update`
assign (so it is `none` right after construction).  The `_api` client is
an external transport object and carries no data relevant here; only the
NAME of the attribute it is stored under matters (see
`baseDeviceResolves`). -/
structure BaseDevice where
  discoveryData : DiscoveryData
  devId : String
  devName : String
  handle : HandleType
  supported : Finset DeviceCapability
  stateData : Option StateDict
  deriving DecidableEq

/-- Attribute names that resolve on a `BaseDevice` instance: the
instance attributes assigned in `__init__` (including `_api`) and
`_state_data`, together with the names defined on the class body
(the two properties, the methods).  `api` is NOT among them: the
constructor stores the client under `_api` and the class defines no
`api` property, so `self.api` raises `AttributeError`. -/
def baseDeviceResolves (attr : String) : Bool :=
  attr ∈ ["_discovery_data", "_api", "_id", "_name", "_handle_type",
          "_supported_capabilities", "_state_data"]
  || attr ∈ ["__init__", "id", "supported_capabilities", "has_capability",
             "_validate_capabilities", "send_command", "update"]

/-- The method `BaseDevice._validate_capabilities` (lines 87-94): look the
handle type up in `HANDLE_TYPE_CAPABILITIES`, and unless the required set
is a subset of the reported one, raise `DeviceError` naming the missing
capabilities `required - supported`. -/
def validateCapabilities (devId : String) (handle : HandleType)
    (supported : Finset DeviceCapability) : Except PyError Unit :=
  match capsLookup handle with
  | none => .error (.keyError handle.value)
  | some required =>
      if required ⊆ supported then .ok ()
      else .error (.deviceError devId (required \ supported))

/-- The constructor `BaseDevice.__init__` (lines 65-72): read the keys
`id`, `name`, `handleType`, `supportedCapabilities` in source order
(raising `KeyError` on an absent key), convert the handle-type string
through the enum (raising `ValueError` on an unrecognized one), then run
`_validate_capabilities`.  Only when everything passes is a device
object produced. -/
def BaseDevice.construct (dd : DiscoveryData) : Except PyError BaseDevice :=
  match dd.id with
  | none => .error (.keyError "id")
  | some i =>
    match dd.name with
    | none => .error (.keyError "name")
    | some n =>
      match dd.handleType with
      | none => .error (.keyError "handleType")
      | some hts =>
        match HandleType.ofString hts with
        | none => .error (.valueError hts)
        | some ht =>
          match dd.supportedCapabilities with
          | none => .error (.keyError "supportedCapabilities")
          | some sup =>
            match validateCapabilities i ht sup with
            | .error e => .error e
            | .ok _ =>
                .ok { discoveryData := dd, devId := i, devName := n,
                      handle := ht, supported := sup, stateData := none }

/-- The method `BaseDevice.has_capability` (lines 84-86): a pure
membership test on the stored set; it performs no validation, raises
nothing and mutates nothing. -/
def BaseDevice.hasCapability (d : BaseDevice) (c : DeviceCapability) : Bool :=
  c ∈ d.supported

/-- The `DeviceCommand` value (lines 56-60). -/
structure DeviceCommand where
  capability : String
  name : String
  arguments : Option (List (String × String))

/-- The dict stored under a response key `payload`, as `send_command`
and `update` index it: it may or may not hold a `devices` key, whose
value is a list of state dictionaries. -/
structure PayloadDict where
  devices : Option (List StateDict)

/-- A transport response as the guard `if response and "payload" in
response` sees it: either `None` (falsy), or a dict that may hold a
`payload` key.  A dict holding the `payload` key is nonempty, hence
truthy, so for dicts the guard reduces to presence of that key. -/
inductive ApiResponse where
  | pyNone
  | pyDict (payload : Option PayloadDict)

/-- The response-handling tail shared by `send_command` (lines 104-105)
and `update` (lines 110-111):
`if response and "payload" in response: self._state_data =
response["payload"]["devices"][0]`.  When the guard fails the state is
untouched; when it holds, indexing `["devices"]` on a payload lacking
that key raises `KeyError`, `[0]` on an empty list raises `IndexError`,
and otherwise `_state_data` is overwritten wholesale with the first
entry. -/
def applyStateUpdate (d : BaseDevice) (resp : ApiResponse) :
    BaseDevice × Except PyError Unit :=
  match resp with
  | .pyNone => (d, .ok ())
  | .pyDict none => (d, .ok ())
  | .pyDict (some pl) =>
      match pl.devices with
      | none => (d, .error (.keyError "devices"))
      | some [] => (d, .error (.indexError 0))
      | some (s0 :: _) => ({ d with stateData := some s0 }, .ok ())

/-- The method `BaseDevice.send_command` (lines 96-105).  Its first step
evaluates `self.api.send_command(self.id, command.capability,
command.name, command.arguments)`; the attribute read `self.api` does
not resolve (the constructor stores the client under `_api`), so the
call raises `AttributeError` before anything is transmitted.  The
response the transport WOULD return is passed in as `resp` so that the
response-handling tail (lines 104-105) is still modeled on the branch
the lookup would enable. -/
def BaseDevice.sendCommand (d : BaseDevice) (_command : DeviceCommand)
    (resp : ApiResponse) : BaseDevice × Except PyError Unit :=
  if baseDeviceResolves "api" then applyStateUpdate d resp
  else (d, .error (.attributeError "api"))

/-- The method `BaseDevice.update` (lines 107-111).  Like `sendCommand`,
its first step reads `self.api`, which raises `AttributeError`; the
response-handling tail (lines 110-111) sits on the branch the lookup
would enable. -/
def BaseDevice.update (d : BaseDevice) (resp : ApiResponse) :
    BaseDevice × Except PyError Unit :=
  if baseDeviceResolves "api" then applyStateUpdate d resp
  else (d, .error (.attributeError "api"))

/-- The `RGBColor` dataclass (lines 166-177); Python ints are unbounded,
so the fields are `Int`. -/
structure RGBColor where
  r : Int
  g : Int
  b : Int
  deriving DecidableEq, Repr

/-- RGBColor.to_dict: the dict literal with exactly the keys
`r`, `g`, `b`. -/
def RGBColor.toDict (c : RGBColor) : List (String × Int) :=
  [("r", c.r), ("g", c.g), ("b", c.b)]

/-- RGBColor.from_dict: reads `data['r']`, `data['g']`, `data['b']`,
raising `KeyError` on a missing key. -/
def RGBColor.fromDict (data : List (String × Int)) : Except PyError RGBColor :=
  match data.lookup "r" with
  | none => .error (.keyError "r")
  | some rv =>
    match data.lookup "g" with
    | none => .error (.keyError "g")
    | some gv =>
      match data.lookup "b" with
      | none => .error (.keyError "b")
      | some bv => .ok { r := rv, g := gv, b := bv }

/-- Restriction of an integer dict to the keys `r`, `g`, `b`: the triple
of lookups at those keys, used to compare two dicts on exactly them. -/
def restrictRGB (d : List (String × Int)) :
    Option Int × Option Int × Option Int :=
  (d.lookup "r", d.lookup "g", d.lookup "b")

/-- Test fixture: discovery data with well-formed `id`, `name` and the
string value of the given handle type, reporting the given capability
set. -/
def mkDiscovery (ht : HandleType) (sup : Finset DeviceCapability) :
    DiscoveryData :=
  { id := some "device-1", name := some "Device",
    handleType := some ht.value, supportedCapabilities := some sup }

/-- Test fixture: the device produced by constructing from
`mkDiscovery .UTEC_SWITCH` with exactly the required capability. -/
def sampleDevice : BaseDevice :=
  { discoveryData := mkDiscovery .UTEC_SWITCH {.SWITCH},
    devId := "device-1", devName := "Device", handle := .UTEC_SWITCH,
    supported := {.SWITCH}, stateData := none }

/-- Boolean success test on an `Except` result. -/
def exceptIsOk {ε α : Type _} : Except ε α → Bool
  | .ok _ => true
  | .error _ => false

lemma sendCommand_eq (d : BaseDevice) (cmd : DeviceCommand)
    (resp : ApiResponse) :
    d.sendCommand cmd resp = (d, .error (.attributeError "api")) := rfl

lemma update_eq (d : BaseDevice) (resp : ApiResponse) :
    d.update resp = (d, .error (.attributeError "api")) := rfl

lemma construct_ok_validates (dd : DiscoveryData) (d : BaseDevice)
    (h : BaseDevice.construct dd = .ok d) :
    ∃ req, capsLookup d.handle = some req ∧ req ⊆ d.supported := by
  unfold BaseDevice.construct at h
  repeat' split at h
  all_goals try exact Except.noConfusion h
  next i n hts ht sup u heq =>
    injection h with h
    subst h
    unfold validateCapabilities at heq
    split at heq
    · exact Except.noConfusion heq
    next req hlook =>
      split at heq
      next hsub => exact ⟨req, hlook, hsub⟩
      next => exact Except.noConfusion heq

lemma construct_deviceError_iff (dd : DiscoveryData) (i : String)
    (m : Finset DeviceCapability) :
    BaseDevice.construct dd = .error (.deviceError i m) ↔
    ∃ n hts ht sup req, dd.id = some i ∧ dd.name = some n ∧
      dd.handleType = some hts ∧ HandleType.ofString hts = some ht ∧
      dd.supportedCapabilities = some sup ∧ capsLookup ht = some req ∧
      ¬ req ⊆ sup ∧ m = req \ sup := by
  constructor
  · intro h
    unfold BaseDevice.construct at h
    split at h
    · exact PyError.noConfusion (Except.error.inj h)
    next i0 hid =>
      split at h
      · exact PyError.noConfusion (Except.error.inj h)
      next n hname =>
        split at h
        · exact PyError.noConfusion (Except.error.inj h)
        next hts hht =>
          split at h
          · exact PyError.noConfusion (Except.error.inj h)
          next ht hof =>
            split at h
            · exact PyError.noConfusion (Except.error.inj h)
            next sup hsup =>
              split at h
              next e heq =>
                have he := Except.error.inj h
                subst he
                unfold validateCapabilities at heq
                split at heq
                · exact PyError.noConfusion (Except.error.inj heq)
                next req hlook =>
                  split at heq
                  next => exact Except.noConfusion heq
                  next hneg =>
                    obtain ⟨hi, hm⟩ := PyError.deviceError.inj
                      (Except.error.inj heq)
                    exact ⟨n, hts, ht, sup, req, hi ▸ hid, hname, hht,
                      hof, hsup, hlook, hneg, hm.symm⟩
              next => exact Except.noConfusion h
  · rintro ⟨n, hts, ht, sup, req, h1, h2, h3, h4, h5, h6, h7, h8⟩
    subst h8
    simp only [BaseDevice.construct, h1, h2, h3, h4, h5,
      validateCapabilities, h6, if_neg h7]

/-- C1: a device whose construction succeeds has its supported set a
superset of the required set for its handle type (the handle type does
have a table entry), the subset check having been run at construction;
and none of `send_command`, `update` (nor their response-handling tail)
or `has_capability` re-raises the validation error or changes the
supported set, the id, or the handle type. -/
theorem capability_invariant_checked_once :
    ∀ dd d, BaseDevice.construct dd = .ok d →
      (capsLookup d.handle ≠ none ∧ requiredCaps d.handle ⊆ d.supported) ∧
      (∀ cmd resp,
         (d.sendCommand cmd resp).1.supported = d.supported ∧
         (d.sendCommand cmd resp).1.devId = d.devId ∧
         (d.sendCommand cmd resp).1.handle = d.handle ∧
         ∀ i m, (d.sendCommand cmd resp).2 ≠ .error (.deviceError i m)) ∧
      (∀ resp,
         (d.update resp).1.supported = d.supported ∧
         (d.update resp).1.devId = d.devId ∧
         (d.update resp).1.handle = d.handle ∧
         ∀ i m, (d.update resp).2 ≠ .error (.deviceError i m)) ∧
      (∀ resp,
         (applyStateUpdate d resp).1.supported = d.supported ∧
         (applyStateUpdate d resp).1.devId = d.devId ∧
         (applyStateUpdate d resp).1.handle = d.handle ∧
         ∀ i m, (applyStateUpdate d resp).2 ≠ .error (.deviceError i m)) ∧
      (∀ c, d.hasCapability c = decide (c ∈ d.supported)) := by
  intro dd d h
  obtain ⟨req, hlook, hsub⟩ := construct_ok_validates dd d h
  refine ⟨⟨by rw [hlook]; exact Option.noConfusion,
           by unfold requiredCaps; rw [hlook]; exact hsub⟩, ?_, ?_, ?_, ?_⟩
  · intro cmd resp
    rw [sendCommand_eq]
    exact ⟨rfl, rfl, rfl, fun i m hc =>
      PyError.noConfusion (Except.error.inj hc)⟩
  · intro resp
    rw [update_eq]
    exact ⟨rfl, rfl, rfl, fun i m hc =>
      PyError.noConfusion (Except.error.inj hc)⟩
  · intro resp
    rcases resp with _ | op
    · exact ⟨rfl, rfl, rfl, fun i m hc => Except.noConfusion hc⟩
    · rcases op with _ | ⟨od⟩
      · exact ⟨rfl, rfl, rfl, fun i m hc => Except.noConfusion hc⟩
      · rcases od with _ | ds
        · exact ⟨rfl, rfl, rfl, fun i m hc =>
            PyError.noConfusion (Except.error.inj hc)⟩
        · rcases ds with _ | ⟨s0, rest⟩
          · exact ⟨rfl, rfl, rfl, fun i m hc =>
              PyError.noConfusion (Except.error.inj hc)⟩
          · exact ⟨rfl, rfl, rfl, fun i m hc => Except.noConfusion hc⟩
  · intro c
    rfl

/-- Witness for C1: the invariant instantiated at a concrete successful
construction (a `utec-switch` device reporting exactly `{Switch}`). -/
theorem capability_invariant_checked_once_witness :
    requiredCaps sampleDevice.handle ⊆ sampleDevice.supported :=
  (capability_invariant_checked_once (mkDiscovery .UTEC_SWITCH {.SWITCH})
    sampleDevice (by rfl)).1.2

deriving instance DecidableEq for Except

/-- C2: for every `HandleType`, constructing a device whose reported
supported-capability set is exactly the required set for that handle
type succeeds: no error of any kind is raised. -/
theorem construct_with_exact_required_succeeds :
    ∀ ht : HandleType,
      exceptIsOk (BaseDevice.construct (mkDiscovery ht (requiredCaps ht)))
        = true := by
  decide

/-- C3: for every `HandleType` and every capability `c` in its required
set, constructing a device that reports the required set minus `{c}`
aborts with the validation error: the result is an error (no device
object is produced), the error is `DeviceError`, and its message names
exactly `{c}` as the missing capabilities. -/
theorem omit_required_capability_fails :
    ∀ (ht : HandleType) (c : DeviceCapability), c ∈ requiredCaps ht →
      BaseDevice.construct (mkDiscovery ht (requiredCaps ht \ {c}))
        = .error (.deviceError "device-1" {c}) := by
  decide

/-- Witness for C3: dropping `Switch` from a `utec-switch` device's
reported set makes construction fail naming `Switch` as missing. -/
theorem omit_required_capability_fails_witness :
    BaseDevice.construct
        (mkDiscovery .UTEC_SWITCH
          (requiredCaps .UTEC_SWITCH \ {DeviceCapability.SWITCH}))
      = .error (.deviceError "device-1" {DeviceCapability.SWITCH}) :=
  omit_required_capability_fails .UTEC_SWITCH .SWITCH (by decide)

/-- C5: the required set for `utec-switch` is exactly `{Switch}`; a
device of that handle type reporting `{Switch, Brightness}` validates
successfully, and one reporting the empty set fails with the validation
error naming `{Switch}` as the missing required capabilities. -/
theorem utec_switch_requirements :
    requiredCaps .UTEC_SWITCH = {DeviceCapability.SWITCH} ∧
    exceptIsOk (BaseDevice.construct (mkDiscovery .UTEC_SWITCH
      {DeviceCapability.SWITCH, DeviceCapability.BRIGHTNESS})) = true ∧
    BaseDevice.construct (mkDiscovery .UTEC_SWITCH ∅)
      = .error (.deviceError "device-1" {DeviceCapability.SWITCH}) := by
  decide

/-- C6: the capability requirement table is total over the five
`HandleType` values, listing each exactly once, and every entry is a
non-empty capability set. -/
theorem handle_type_table_total_nonempty :
    (∀ ht : HandleType, ∃ s, capsLookup ht = some s ∧ s.Nonempty) ∧
    HANDLE_TYPE_CAPABILITIES.map Prod.fst =
      [.UTEC_LOCK, .UTEC_LOCK_SENSOR, .UTEC_DIMMER,
       .UTEC_LIGHT_RGBAW, .UTEC_SWITCH] := by
  refine ⟨fun ht => ?_, rfl⟩
  cases ht <;> exact ⟨_, rfl, by decide⟩

/-- C4 (code bug): `send_command` and `update` never transmit anything
and never replace the cached state.  Their first step reads `self.api`,
but the constructor stores the API client under `self._api` and the
class defines no `api` attribute or property, so every call raises
`AttributeError` with the device object untouched. -/
theorem sendCommand_update_raise_attribute_error :
    ∀ (d : BaseDevice) (cmd : DeviceCommand) (resp : ApiResponse),
      d.sendCommand cmd resp = (d, .error (.attributeError "api")) ∧
      ∀ resp2, d.update resp2 = (d, .error (.attributeError "api")) :=
  fun d cmd resp => ⟨sendCommand_eq d cmd resp, fun r2 => update_eq d r2⟩

/-- C7: the validation `DeviceError` is raised exactly when, on
otherwise well-formed discovery data, some required capability is absent
from the reported set (and it carries exactly `required - supported`);
a missing `id` key surfaces as the underlying `KeyError`, an
unrecognized `handleType` string as the underlying `ValueError`, and a
`send_command` / `update` failure as the underlying `AttributeError` —
never as a `DeviceError`. -/
theorem device_error_only_domain_error :
    (∀ dd i m, BaseDevice.construct dd = .error (.deviceError i m) ↔
      ∃ n hts ht sup req, dd.id = some i ∧ dd.name = some n ∧
        dd.handleType = some hts ∧ HandleType.ofString hts = some ht ∧
        dd.supportedCapabilities = some sup ∧ capsLookup ht = some req ∧
        ¬ req ⊆ sup ∧ m = req \ sup) ∧
    (∀ dd, dd.id = none →
      BaseDevice.construct dd = .error (.keyError "id")) ∧
    (∀ dd i n hts, dd.id = some i → dd.name = some n →
      dd.handleType = some hts → HandleType.ofString hts = none →
      BaseDevice.construct dd = .error (.valueError hts)) ∧
    (∀ (d : BaseDevice) cmd resp,
      (d.sendCommand cmd resp).2 = .error (.attributeError "api") ∧
      (d.update resp).2 = .error (.attributeError "api")) := by
  refine ⟨construct_deviceError_iff, ?_, ?_, ?_⟩
  · intro dd h
    obtain ⟨o1, o2, o3, o4⟩ := dd
    cases o1 with
    | none => rfl
    | some i => exact Option.noConfusion h
  · intro dd i n hts h1 h2 h3 h4
    simp only [BaseDevice.construct, h1, h2, h3, h4]
  · intro d cmd resp
    rw [sendCommand_eq, update_eq]
    exact ⟨rfl, rfl⟩

/-- Witness for C7: discovery data lacking every key fails with the
underlying `KeyError` on `id`, not with a `DeviceError`. -/
theorem device_error_only_domain_error_witness :
    BaseDevice.construct ⟨none, none, none, none⟩
      = .error (.keyError "id") :=
  device_error_only_domain_error.2.1 ⟨none, none, none, none⟩ rfl

/-- C8 (counterexample): the member `SWITCH_LEVEL` does NOT carry the
string value matching its name: the source assigns it `"Switch Level"`,
with a space, not `"SwitchLevel"`. -/
theorem switch_level_value_not_its_name :
    DeviceCapability.SWITCH_LEVEL.value ≠ "SwitchLevel" := by
  decide

/-- C8 (amended): the `DeviceCapability` enumeration has exactly nine
members; eight carry the string value matching their name, while
`SWITCH_LEVEL` carries `"Switch Level"`. -/
theorem device_capability_nine_members :
    Fintype.card DeviceCapability = 9 ∧
    DeviceCapability.SWITCH.value = "Switch" ∧
    DeviceCapability.LOCK.value = "Lock" ∧
    DeviceCapability.BATTERY_LEVEL.value = "BatteryLevel" ∧
    DeviceCapability.LOCK_USER.value = "LockUser" ∧
    DeviceCapability.DOOR_SENSOR.value = "DoorSensor" ∧
    DeviceCapability.BRIGHTNESS.value = "Brightness" ∧
    DeviceCapability.COLOR.value = "Color" ∧
    DeviceCapability.COLOR_TEMPERATURE.value = "ColorTemperature" ∧
    DeviceCapability.SWITCH_LEVEL.value = "Switch Level" := by
  exact ⟨rfl, rfl, rfl, rfl, rfl, rfl, rfl, rfl, rfl, rfl⟩

/-- C9: a `None`/empty response, or a response dictionary with no
`payload` key, leaves the cached state completely unchanged: the
response-handling tail returns the device untouched and raises nothing,
and the full `send_command` / `update` calls also leave the device
untouched. -/
theorem no_payload_leaves_state_unchanged :
    ∀ (d : BaseDevice) (resp : ApiResponse),
      (resp = .pyNone ∨ resp = .pyDict none) →
      applyStateUpdate d resp = (d, .ok ()) ∧
      (∀ cmd, (d.sendCommand cmd resp).1 = d) ∧
      (d.update resp).1 = d := by
  intro d resp h
  rcases h with h | h <;> subst h <;>
    exact ⟨rfl, fun _ => rfl, rfl⟩

/-- Witness for C9: the absent (`None`) response leaves a concrete
device exactly as it was. -/
theorem no_payload_leaves_state_unchanged_witness :
    applyStateUpdate sampleDevice .pyNone = (sampleDevice, .ok ()) :=
  (no_payload_leaves_state_unchanged sampleDevice .pyNone (Or.inl rfl)).1

/-- C10: converting an `RGBColor` to a dictionary and back yields the
same color, and for any integer dictionary holding the keys `r`, `g`
and `b`, parsing it and serializing the result agrees with the original
dictionary on exactly those keys. -/
theorem rgb_color_dict_roundtrip :
    (∀ c : RGBColor, RGBColor.fromDict (RGBColor.toDict c) = .ok c) ∧
    (∀ (d : List (String × Int)) (rv gv bv : Int),
      d.lookup "r" = some rv → d.lookup "g" = some gv →
      d.lookup "b" = some bv →
      RGBColor.fromDict d = .ok ⟨rv, gv, bv⟩ ∧
      restrictRGB (RGBColor.toDict ⟨rv, gv, bv⟩) = restrictRGB d) := by
  constructor
  · intro c
    rfl
  · intro d rv gv bv hr hg hb
    constructor
    · unfold RGBColor.fromDict
      rw [hr, hg, hb]
    · unfold restrictRGB RGBColor.toDict
      rw [hr, hg, hb]
      rfl

/-- Witness for C10: a dictionary with the three color keys (and one
extra key) parses to the expected color, whose serialization agrees
with the dictionary on the color keys. -/
theorem rgb_color_dict_roundtrip_witness :
    RGBColor.fromDict [("r", 1), ("g", 2), ("b", 3), ("x", 9)]
        = .ok ⟨1, 2, 3⟩ ∧
    restrictRGB (RGBColor.toDict ⟨1, 2, 3⟩)
        = restrictRGB [("r", 1), ("g", 2), ("b", 3), ("x", 9)] :=
  rgb_color_dict_roundtrip.2 [("r", 1), ("g", 2), ("b", 3), ("x", 9)]
    1 2 3 rfl rfl rfl
